import Mathlib

/-!
Verification of the autopilot decision engine (`src/autopilotEngine.js`,
first engine variant, the one the repository serves).  JavaScript numbers
are modelled as exact rationals, `Math.round` as floor of `x + 1/2`
(round half toward positive infinity, as in JS), database reads and the
outbound price-update call as an explicit environment record, and the
append-only `ai_actions` audit table as a list of log entries.
-/

namespace Autopilot

/-- JS `Math.round`: round half toward positive infinity. -/
def jsRound (x : ℚ) : ℤ := ⌊x + 1/2⌋

/-- Rounding as `Math.round(x * 100) / 100` — two decimal places. -/
def round2 (x : ℚ) : ℚ := (jsRound (x * 100) : ℚ) / 100

/-- A `products` row, with the fields the engine reads. -/
structure Product where
  shopify_product_id : String
  title : String
  price : ℚ
  inventory_quantity : ℤ
  deriving DecidableEq, Repr

/-- A `product_performance` row; columns may be NULL, hence `Option`. -/
structure Performance where
  conversion_rate : Option ℚ
  profit_margin : Option ℚ
  deriving DecidableEq, Repr

/-- A `seasonal_events` row; `product_keywords` may be NULL. -/
structure SeasonalEvent where
  name : String
  product_keywords : Option (List String)
  deriving DecidableEq, Repr

/-- A `shops` row as selected by the engine (`autopilot_mode, risk_level`). -/
structure ShopInfo where
  autopilot_mode : Option String
  risk_level : Option String
  deriving DecidableEq, Repr

/-- Does `need` occur at the start of `hay`? (character-list version of JS
`startsWith`, used to build `includes`). -/
def charsHasPrefix : List Char → List Char → Bool
  | _, [] => true
  | [], _ :: _ => false
  | h :: t, nh :: nt => h == nh && charsHasPrefix t nt

/-- Does `need` occur contiguously inside `hay`? -/
def charsContains : List Char → List Char → Bool
  | [], need => need.isEmpty
  | h :: t, need => charsHasPrefix (h :: t) need || charsContains t need

/-- JS `s.toLowerCase()`, as a character-by-character lowercase map. -/
def jsToLower (s : String) : List Char := s.data.map Char.toLower

/-- JS `s.includes(sub)`. -/
def jsIncludes (s sub : List Char) : Bool := charsContains s sub

/-- JS `s || d` for an optional string: `null`/`undefined` and the empty
string are falsy and fall back to the default. -/
def jsOrStr (s : Option String) (d : String) : String :=
  match s with
  | none => d
  | some v => if v = "" then d else v

/-- The keyword test used by the engine:
`event && event.product_keywords?.some(k => product.title.toLowerCase().includes(k.toLowerCase()))`. -/
def eventMatches (event : Option SeasonalEvent) (title : String) : Bool :=
  match event with
  | none => false
  | some e =>
    match e.product_keywords with
    | none => false
    | some ks => ks.any (fun k => jsIncludes (jsToLower title) (jsToLower k))

/-- Translation of `calculateOptimalPrice(product, performance, event, riskLevel)`: each matching rule clause overwrites `newPrice`, except the seasonal
clause, which multiplies the current `newPrice`; result rounded to 2 dp. -/
def calculateOptimalPrice (product : Product) (performance : Option Performance)
    (event : Option SeasonalEvent) (riskLevel : String) : ℚ :=
  let price := product.price
  let newPrice := price
  let conv := (performance.bind (fun pf => pf.conversion_rate)).getD 0
  let margin := (performance.bind (fun pf => pf.profit_margin)).getD 0
  let newPrice :=
    if margin > (25/100) ∧ conv > (8/100) then
      price * (if riskLevel = "aggressive" then (112/100) else (108/100))
    else newPrice
  let newPrice :=
    if conv < (2/100) then
      price * (if riskLevel = "aggressive" then (90/100) else (95/100))
    else newPrice
  let newPrice :=
    if product.inventory_quantity < 5 then
      price * (if riskLevel = "safe" then (105/100) else (110/100))
    else newPrice
  let newPrice :=
    if eventMatches event product.title then
      newPrice * (if riskLevel = "aggressive" then (120/100) else (115/100))
    else newPrice
  round2 newPrice

/-- Approved/rejected counts returned by `getFeedbackTrends`. -/
structure FeedbackTrend where
  approved : ℕ
  rejected : ℕ
  deriving DecidableEq, Repr

/-- Translation of `getFeedbackTrends`: count the approved and rejected rows of the
`ai_feedback` query result; a failed read degrades to zero counts. -/
def getFeedbackTrends (result : Except String (List String)) : FeedbackTrend :=
  match result with
  | .error _ => ⟨0, 0⟩
  | .ok data =>
    ⟨(data.filter (fun f => f == "approved")).length,
     (data.filter (fun f => f == "rejected")).length⟩

/-- One `ai_actions` row as inserted by `logAIAction` (the price fields of
the detail payload are kept; the free-form reason string is descriptive
only and not modelled). -/
structure LogEntry where
  product_id : String
  action : String
  status : String
  old_price : Option ℚ
  new_price : Option ℚ
  deriving DecidableEq, Repr

/-- The per-run counters of `runAutopilot`. -/
structure Counters where
  analyzed : ℕ
  priceSuggestions : ℕ
  applied : ℕ
  skippedDueToFeedback : ℕ
  marketingSuggestions : ℕ
  deriving DecidableEq, Repr

def initCounters : Counters := ⟨0, 0, 0, 0, 0⟩

/-- The environment a run reads: query results and the outcome of the
outbound price-update call, keyed as the engine keys them. -/
structure Env where
  eventsData : Option (List SeasonalEvent)
  shopInfoData : Option ShopInfo
  productsData : Except String (List Product)
  perf : String → Option Performance
  feedbackRows : String → String → Except String (List String)
  fetchOk : String → ℚ → Bool

/-- Step 4a of the product loop: feedback gate first, then the candidate
change, then (mode `full`, risk not `safe`) the external apply attempt whose
failure is caught and only logged. -/
def priceStep (env : Env) (mode risk : String) (activeEvent : Option SeasonalEvent)
    (p : Product) (st : Counters × List LogEntry) : Counters × List LogEntry :=
  let c := st.1
  let log := st.2
  let perf := env.perf p.shopify_product_id
  let currentPrice := p.price
  let newPrice := calculateOptimalPrice p perf activeEvent risk
  let priceTrend := getFeedbackTrends (env.feedbackRows p.shopify_product_id "price_adjustment")
  if priceTrend.rejected > priceTrend.approved * 2 then
    ({ c with skippedDueToFeedback := c.skippedDueToFeedback + 1 },
     log ++ [⟨p.shopify_product_id, "price_skipped_due_to_feedback", "skipped",
             some p.price, some newPrice⟩])
  else if newPrice ≠ currentPrice then
    let c1 := { c with priceSuggestions := c.priceSuggestions + 1 }
    let log1 := log ++ [⟨p.shopify_product_id, "price_adjustment",
      (if mode = "full" ∧ risk ≠ "safe" then "pending_apply" else "suggested"),
      some p.price, some newPrice⟩]
    if mode = "full" ∧ risk ≠ "safe" then
      if env.fetchOk p.shopify_product_id newPrice then
        ({ c1 with applied := c1.applied + 1 },
         log1 ++ [⟨p.shopify_product_id, "price_applied", "completed",
                  none, some newPrice⟩])
      else (c1, log1)
    else (c1, log1)
  else (c, log)

/-- Step 4b of the product loop: the ad-boost suggestion, with its own
feedback gate. -/
def marketingStep (env : Env) (_risk : String) (activeEvent : Option SeasonalEvent)
    (p : Product) (st : Counters × List LogEntry) : Counters × List LogEntry :=
  let c := st.1
  let log := st.2
  let perf := env.perf p.shopify_product_id
  let conv := (perf.bind (fun pf => pf.conversion_rate)).getD 0
  let margin := (perf.bind (fun pf => pf.profit_margin)).getD 0
  let isWinner := (decide (conv > (5/100) ∧ margin > (25/100))) || eventMatches activeEvent p.title
  if isWinner then
    let adTrend := getFeedbackTrends (env.feedbackRows p.shopify_product_id "ad_boost_suggested")
    if adTrend.rejected > adTrend.approved * 2 then
      ({ c with skippedDueToFeedback := c.skippedDueToFeedback + 1 },
       log ++ [⟨p.shopify_product_id, "ad_boost_skipped_due_to_feedback", "skipped",
               none, none⟩])
    else
      ({ c with marketingSuggestions := c.marketingSuggestions + 1 },
       log ++ [⟨p.shopify_product_id, "ad_boost_suggested", "suggested", none, none⟩])
  else (c, log)

/-- One iteration of the product loop (`analyzed++`, price decision,
marketing decision). -/
def stepProduct (env : Env) (mode risk : String) (activeEvent : Option SeasonalEvent)
    (st : Counters × List LogEntry) (p : Product) : Counters × List LogEntry :=
  marketingStep env risk activeEvent p
    (priceStep env mode risk activeEvent p
      ({ st.1 with analyzed := st.1.analyzed + 1 }, st.2))

/-- Mode fallback, `shopInfo?.autopilot_mode || "manual"`. -/
def modeOf (env : Env) : String :=
  jsOrStr (env.shopInfoData.bind (fun si => si.autopilot_mode)) "manual"

/-- Risk fallback, `shopInfo?.risk_level || "normal"`. -/
def riskOf (env : Env) : String :=
  jsOrStr (env.shopInfoData.bind (fun si => si.risk_level)) "normal"

/-- The summary object returned by a successful run. -/
structure RunSummary where
  analyzed : ℕ
  price_suggestions : ℕ
  applied : ℕ
  skipped_due_to_feedback : ℕ
  marketing_suggestions : ℕ
  deriving DecidableEq, Repr

/-- Translation of `runAutopilot(shop)`: active event and shop config degrade to defaults on
a failed read; a failed or empty product read throws; then the product loop
runs and the counters are returned. -/
def runAutopilot (env : Env) : Except String (RunSummary × List LogEntry) :=
  let activeEvent := (env.eventsData.getD []).head?
  let mode := modeOf env
  let risk := riskOf env
  match env.productsData with
  | .error e => .error e
  | .ok products =>
    if products.length = 0 then .error "No products found."
    else
      let res := products.foldl (stepProduct env mode risk activeEvent) (initCounters, [])
      .ok (⟨res.1.analyzed, res.1.priceSuggestions, res.1.applied,
            res.1.skippedDueToFeedback, res.1.marketingSuggestions⟩, res.2)

/-- Does the run return a summary (as opposed to throwing)? -/
def runSucceeds (env : Env) : Bool :=
  match runAutopilot env with
  | .ok _ => true
  | .error _ => false

/-- Number of `price_skipped_due_to_feedback` audit rows for a product. -/
def priceSkips (log : List LogEntry) (pid : String) : ℕ :=
  (log.filter (fun e => e.action == "price_skipped_due_to_feedback" && e.product_id == pid)).length

/-- Number of `price_adjustment` audit rows for a product. -/
def priceAdjustments (log : List LogEntry) (pid : String) : ℕ :=
  (log.filter (fun e => e.action == "price_adjustment" && e.product_id == pid)).length

/-- Number of `ad_boost_skipped_due_to_feedback` audit rows for a product. -/
def adSkips (log : List LogEntry) (pid : String) : ℕ :=
  (log.filter (fun e => e.action == "ad_boost_skipped_due_to_feedback" && e.product_id == pid)).length

/-- The winner condition of step 4b for a product, as the engine computes it. -/
def isWinnerFor (env : Env) (ev : Option SeasonalEvent) (p : Product) : Bool :=
  (decide ((((env.perf p.shopify_product_id).bind (fun pf => pf.conversion_rate)).getD 0 : ℚ) > (5/100)
      ∧ (((env.perf p.shopify_product_id).bind (fun pf => pf.profit_margin)).getD 0 : ℚ) > (25/100)))
    || eventMatches ev p.title

/-- The candidate price the inventory and seasonal rules alone would produce.
This follows the wording of the specification (which asserts that with no
performance snapshot the performance rules never fire), for comparison with
`calculateOptimalPrice`; it is not part of the source. -/
def inventorySeasonalOnlyPrice (product : Product) (event : Option SeasonalEvent)
    (riskLevel : String) : ℚ :=
  let price := product.price
  let newPrice := price
  let newPrice :=
    if product.inventory_quantity < 5 then
      price * (if riskLevel = "safe" then (105/100) else (110/100))
    else newPrice
  let newPrice :=
    if eventMatches event product.title then
      newPrice * (if riskLevel = "aggressive" then (120/100) else (115/100))
    else newPrice
  round2 newPrice

/-- The candidate of `calculateOptimalPrice` just before the seasonal clause
(the performance and inventory clauses, unrounded). -/
def preSeasonalCandidate (product : Product) (performance : Option Performance)
    (riskLevel : String) : ℚ :=
  let price := product.price
  let newPrice := price
  let conv := (performance.bind (fun pf => pf.conversion_rate)).getD 0
  let margin := (performance.bind (fun pf => pf.profit_margin)).getD 0
  let newPrice :=
    if margin > (25/100) ∧ conv > (8/100) then
      price * (if riskLevel = "aggressive" then (112/100) else (108/100))
    else newPrice
  let newPrice :=
    if conv < (2/100) then
      price * (if riskLevel = "aggressive" then (90/100) else (95/100))
    else newPrice
  let newPrice :=
    if product.inventory_quantity < 5 then
      price * (if riskLevel = "safe" then (105/100) else (110/100))
    else newPrice
  newPrice

/-- Concrete product for scenario B of the spec (price 100.00, inventory 20). -/
def prodC1 : Product := ⟨"p1", "Widget", 100, 20⟩

/-- Concrete snapshot for scenario B (conversion 0.10, margin 0.30). -/
def perfC1 : Performance := ⟨some (1/10), some (3/10)⟩

/-- Product with no snapshot and no rule override. -/
def prodC2 : Product := ⟨"p2", "Widget", 100, 20⟩

/-- Product with a qualifying price change, used for the aggressive-gate run. -/
def prodC3 : Product := ⟨"p3", "Widget", 100, 20⟩

/-- Run with risk `aggressive` and feedback 1 approved / 3 rejected on
`price_adjustment`. -/
def envC3 : Env :=
  { eventsData := none
    shopInfoData := some ⟨some "manual", some "aggressive"⟩
    productsData := .ok [prodC3]
    perf := fun _ => some ⟨some (1/10), some (3/10)⟩
    feedbackRows := fun _ action =>
      if action = "price_adjustment" then
        .ok ["approved", "rejected", "rejected", "rejected"]
      else .ok []
    fetchOk := fun _ _ => true }

/-- Low-inventory product whose title matches the keyword of the active event. -/
def prodC4 : Product := ⟨"p4", "Holiday Mug", 100, 3⟩

/-- Active event with keyword `mug`. -/
def evC4 : SeasonalEvent := ⟨"Xmas", some ["mug"]⟩

/-- Neutral snapshot for the keyword-match product. -/
def perfC4 : Performance := ⟨some (5/100), some (1/10)⟩

/-- Strong performer, for the full-mode apply-failure run. -/
def prodC5 : Product := ⟨"p5", "Widget", 100, 20⟩

/-- Second product with no snapshot, shows the run continues past a failed
apply. -/
def prodC5b : Product := ⟨"p6", "Gadget", 50, 20⟩

/-- Run in mode `full`, risk `aggressive`, where every external price update
fails. -/
def envC5 : Env :=
  { eventsData := none
    shopInfoData := some ⟨some "full", some "aggressive"⟩
    productsData := .ok [prodC5, prodC5b]
    perf := fun pid => if pid = "p5" then some ⟨some (1/10), some (3/10)⟩ else none
    feedbackRows := fun _ _ => .ok []
    fetchOk := fun _ _ => false }

/-- Product whose candidate price equals its current price (no rule fires). -/
def prodC6 : Product := ⟨"p7", "Widget", 100, 20⟩

/-- Run where the only product has no candidate change but a rejection-heavy
feedback history on `price_adjustment`. -/
def envC6 : Env :=
  { eventsData := none
    shopInfoData := some ⟨some "assist", some "normal"⟩
    productsData := .ok [prodC6]
    perf := fun _ => some ⟨some (5/100), some (1/10)⟩
    feedbackRows := fun _ action =>
      if action = "price_adjustment" then .ok ["rejected"] else .ok []
    fetchOk := fun _ _ => true }

/-- Products for the unreadable-shop-config run. -/
def prodC7 : Product := ⟨"p8", "Widget", 100, 20⟩

/-- Run whose shop-config read failed (`shopInfoData = none`) but whose
product read succeeded. -/
def envC7 : Env :=
  { eventsData := none
    shopInfoData := none
    productsData := .ok [prodC7]
    perf := fun _ => some ⟨some (5/100), some (1/10)⟩
    feedbackRows := fun _ _ => .ok []
    fetchOk := fun _ _ => true }

/-- Product whose price is not a whole number of hundredths. -/
def prodC8 : Product := ⟨"p9", "Widget", 1/8, 20⟩

/-- Neutral snapshot that fires no performance rule. -/
def perfC8 : Performance := ⟨some (5/100), some (1/10)⟩

/-- Same neutral setup at a whole-hundredths price. -/
def prodC8b : Product := ⟨"p9b", "Widget", 100, 20⟩

/-- Product for the safe/normal-gate witness. -/
def prodC9 : Product := ⟨"p10", "Widget", 100, 20⟩

/-- Run with risk `safe` whose feedback read fails. -/
def envC9 : Env :=
  { eventsData := none
    shopInfoData := some ⟨some "assist", some "safe"⟩
    productsData := .ok [prodC9]
    perf := fun _ => none
    feedbackRows := fun _ _ => .error "db down"
    fetchOk := fun _ _ => true }

/-- Product for the counters-invariant witness. -/
def prodC10 : Product := ⟨"p11", "Widget", 100, 20⟩

/-- One-product run with no candidate change and no feedback. -/
def envC10 : Env :=
  { eventsData := none
    shopInfoData := none
    productsData := .ok [prodC10]
    perf := fun _ => some ⟨some (5/100), some (1/10)⟩
    feedbackRows := fun _ _ => .ok []
    fetchOk := fun _ _ => true }

/-- Appending one entry adds one to a filtered count exactly when the entry
satisfies the filter. -/
theorem filterLength_append (p : LogEntry → Bool) (l : List LogEntry) (e : LogEntry) :
    ((l ++ [e]).filter p).length = (l.filter p).length + (if p e then 1 else 0) := by
  simp only [List.filter_append, List.length_append, List.filter_cons, List.filter_nil]
  split <;> simp

/-- Effect of one append on the skip count. -/
theorem priceSkips_append (l : List LogEntry) (e : LogEntry) (pid : String) :
    priceSkips (l ++ [e]) pid
      = priceSkips l pid
        + (if e.action == "price_skipped_due_to_feedback" && e.product_id == pid
           then 1 else 0) :=
  filterLength_append _ l e

/-- Effect of one append on the suggestion count. -/
theorem priceAdjustments_append (l : List LogEntry) (e : LogEntry) (pid : String) :
    priceAdjustments (l ++ [e]) pid
      = priceAdjustments l pid
        + (if e.action == "price_adjustment" && e.product_id == pid then 1 else 0) :=
  filterLength_append _ l e

/-- The marketing step never writes price-skip rows. -/
theorem priceSkips_marketingStep (env : Env) (r : String) (ev : Option SeasonalEvent)
    (p : Product) (st : Counters × List LogEntry) (pid : String) :
    priceSkips (marketingStep env r ev p st).2 pid = priceSkips st.2 pid := by
  simp only [marketingStep]
  split_ifs <;> simp [priceSkips, List.filter_append, List.filter_cons]

/-- The marketing step never writes price-suggestion rows. -/
theorem priceAdjustments_marketingStep (env : Env) (r : String) (ev : Option SeasonalEvent)
    (p : Product) (st : Counters × List LogEntry) (pid : String) :
    priceAdjustments (marketingStep env r ev p st).2 pid = priceAdjustments st.2 pid := by
  simp only [marketingStep]
  split_ifs <;> simp [priceAdjustments, List.filter_append, List.filter_cons]

/-- The price step writes exactly one skip row iff the gate condition
`rejected > approved * 2` holds — independently of whether the candidate
price changed. -/
theorem priceSkips_priceStep (env : Env) (mode risk : String) (ev : Option SeasonalEvent)
    (p : Product) (st : Counters × List LogEntry) :
    priceSkips (priceStep env mode risk ev p st).2 p.shopify_product_id
      = priceSkips st.2 p.shopify_product_id
        + (if (getFeedbackTrends (env.feedbackRows p.shopify_product_id "price_adjustment")).rejected
              > (getFeedbackTrends (env.feedbackRows p.shopify_product_id "price_adjustment")).approved * 2
           then 1 else 0) := by
  simp only [priceStep]
  split_ifs <;> simp_all [priceSkips, List.filter_append, List.filter_cons]

/-- The price step writes exactly one suggestion row iff the gate does not
fire and the candidate price differs from the current price. -/
theorem priceAdjustments_priceStep (env : Env) (mode risk : String)
    (ev : Option SeasonalEvent) (p : Product) (st : Counters × List LogEntry) :
    priceAdjustments (priceStep env mode risk ev p st).2 p.shopify_product_id
      = priceAdjustments st.2 p.shopify_product_id
        + (if ¬ (getFeedbackTrends (env.feedbackRows p.shopify_product_id "price_adjustment")).rejected
              > (getFeedbackTrends (env.feedbackRows p.shopify_product_id "price_adjustment")).approved * 2
            ∧ calculateOptimalPrice p (env.perf p.shopify_product_id) ev risk ≠ p.price
           then 1 else 0) := by
  simp only [priceStep]
  split_ifs <;> simp_all [priceAdjustments, List.filter_append, List.filter_cons]

/-- Per-product audit effect of one loop iteration: one skip row iff
`rejected > approved * 2`, one suggestion row iff the gate does not fire and
the candidate changed — for every mode and risk level. -/
theorem gate_step (env : Env) (mode risk : String) (ev : Option SeasonalEvent)
    (p : Product) (st : Counters × List LogEntry) :
    priceSkips (stepProduct env mode risk ev st p).2 p.shopify_product_id
      = priceSkips st.2 p.shopify_product_id
        + (if (getFeedbackTrends (env.feedbackRows p.shopify_product_id "price_adjustment")).rejected
              > (getFeedbackTrends (env.feedbackRows p.shopify_product_id "price_adjustment")).approved * 2
           then 1 else 0) ∧
    priceAdjustments (stepProduct env mode risk ev st p).2 p.shopify_product_id
      = priceAdjustments st.2 p.shopify_product_id
        + (if ¬ (getFeedbackTrends (env.feedbackRows p.shopify_product_id "price_adjustment")).rejected
              > (getFeedbackTrends (env.feedbackRows p.shopify_product_id "price_adjustment")).approved * 2
            ∧ calculateOptimalPrice p (env.perf p.shopify_product_id) ev risk ≠ p.price
           then 1 else 0) := by
  unfold stepProduct
  rw [priceSkips_marketingStep, priceAdjustments_marketingStep]
  exact ⟨priceSkips_priceStep env mode risk ev p _,
         priceAdjustments_priceStep env mode risk ev p _⟩

/-- The price step never writes ad-skip rows. -/
theorem adSkips_priceStep (env : Env) (mode risk : String) (ev : Option SeasonalEvent)
    (p : Product) (st : Counters × List LogEntry) (pid : String) :
    adSkips (priceStep env mode risk ev p st).2 pid = adSkips st.2 pid := by
  simp only [priceStep]
  split_ifs <;> simp [adSkips, List.filter_append, List.filter_cons]

/-- The marketing step writes exactly one ad-skip row iff the product is a
winner and the ad gate condition `rejected > approved * 2` holds. -/
theorem adSkips_marketingStep (env : Env) (r : String) (ev : Option SeasonalEvent)
    (p : Product) (st : Counters × List LogEntry) :
    adSkips (marketingStep env r ev p st).2 p.shopify_product_id
      = adSkips st.2 p.shopify_product_id
        + (if isWinnerFor env ev p = true then
             (if (getFeedbackTrends (env.feedbackRows p.shopify_product_id "ad_boost_suggested")).rejected
                 > (getFeedbackTrends (env.feedbackRows p.shopify_product_id "ad_boost_suggested")).approved * 2
              then 1 else 0)
           else 0) := by
  simp only [marketingStep, isWinnerFor]
  split_ifs <;> simp_all [adSkips, List.filter_append, List.filter_cons]

/-- Per-product ad-skip effect of one loop iteration. -/
theorem adSkips_step (env : Env) (mode risk : String) (ev : Option SeasonalEvent)
    (p : Product) (st : Counters × List LogEntry) :
    adSkips (stepProduct env mode risk ev st p).2 p.shopify_product_id
      = adSkips st.2 p.shopify_product_id
        + (if isWinnerFor env ev p = true then
             (if (getFeedbackTrends (env.feedbackRows p.shopify_product_id "ad_boost_suggested")).rejected
                 > (getFeedbackTrends (env.feedbackRows p.shopify_product_id "ad_boost_suggested")).approved * 2
              then 1 else 0)
           else 0) := by
  unfold stepProduct
  rw [adSkips_marketingStep, adSkips_priceStep]

/-- Rounding to hundredths is the identity on a price that is a whole number
of hundredths. -/
theorem round2_eq_self (x : ℚ) (h : (x * 100).den = 1) : round2 x = x := by
  have h2 : ((x * 100).num : ℚ) = x * 100 := (Rat.den_eq_one_iff _).mp h
  have hfl : jsRound (x * 100) = (x * 100).num := by
    unfold jsRound
    rw [← h2, Int.floor_int_add]
    norm_num
  unfold round2
  rw [hfl, h2]
  exact mul_div_cancel_right₀ x (by norm_num)

/-- Claim C1 (corrected part): the engine never computes `old + scaled delta`;
for the scenario-B product of the spec (price 100.00, margin 0.30, conversion 0.10,
inventory 20, no event) risk `safe` produces 108.00, not the 104.00 the claim
asserts. -/
theorem C1_counterexample :
    calculateOptimalPrice prodC1 (some perfC1) none "safe" = 108 ∧ (108 : ℚ) ≠ 104 := by
  constructor
  · norm_num +decide [calculateOptimalPrice, prodC1, perfC1, eventMatches, round2, jsRound]
  · norm_num

/-- Claim C1 (amended): risk enters the final price through the rule
multipliers themselves — when only the strong-performer rule fires the final
price is `round2 (price × 1.12)` for `aggressive` and `round2 (price × 1.08)`
otherwise (so `safe` behaves like `normal` here); in particular scenario B
at risk `safe` yields 108.00. -/
theorem C1_theorem (p : Product) (pf : Performance) (event : Option SeasonalEvent)
    (risk : String)
    (hm : (pf.profit_margin.getD 0 : ℚ) > 25/100)
    (hc : (pf.conversion_rate.getD 0 : ℚ) > 8/100)
    (hinv : ¬ p.inventory_quantity < 5)
    (hev : eventMatches event p.title = false) :
    calculateOptimalPrice p (some pf) event risk
        = round2 (p.price * (if risk = "aggressive" then (112/100) else (108/100))) ∧
      calculateOptimalPrice prodC1 (some perfC1) none "safe" = 108 := by
  constructor
  · have hc2 : ¬ (pf.conversion_rate.getD 0 : ℚ) < 2/100 := by linarith
    simp only [calculateOptimalPrice, Option.some_bind, hev, Bool.false_eq_true, if_false]
    rw [if_neg hinv, if_neg hc2, if_pos ⟨hm, hc⟩]
  · norm_num +decide [calculateOptimalPrice, prodC1, perfC1, eventMatches, round2, jsRound]

/-- Witness for C1_theorem at the scenario-B product. -/
theorem C1_witness :
    (calculateOptimalPrice prodC1 (some perfC1) none "safe"
        = round2 (prodC1.price * (if "safe" = "aggressive" then (112/100) else (108/100))) ∧
      calculateOptimalPrice prodC1 (some perfC1) none "safe" = 108) :=
  C1_theorem prodC1 perfC1 none "safe" (by norm_num [perfC1]) (by norm_num [perfC1])
    (by decide) (by decide)

/-- Claim C2 (corrected part): with no performance snapshot the weak-conversion
rule fires (the missing conversion rate reads as 0 < 0.02), so the candidate is
95.00 for a 100.00 product with no inventory or seasonal override — not the
100.00 the inventory and seasonal rules alone would produce. -/
theorem C2_counterexample :
    calculateOptimalPrice prodC2 none none "normal" = 95 ∧
      inventorySeasonalOnlyPrice prodC2 none "normal" = 100 ∧ (95 : ℚ) ≠ 100 := by
  refine ⟨?_, ?_, by norm_num⟩
  · norm_num +decide [calculateOptimalPrice, prodC2, eventMatches, round2, jsRound]
  · norm_num +decide [inventorySeasonalOnlyPrice, prodC2, eventMatches, round2, jsRound]

/-- Claim C2 (amended): with no snapshot the strong-performer rule indeed never
fires, but the weak-conversion rule always fires; absent an inventory or
seasonal override the base candidate is `round2 (price × 0.9)` for
`aggressive` risk and `round2 (price × 0.95)` otherwise. -/
theorem C2_theorem (p : Product) (event : Option SeasonalEvent) (risk : String)
    (hinv : ¬ p.inventory_quantity < 5)
    (hev : eventMatches event p.title = false) :
    calculateOptimalPrice p none event risk
      = round2 (p.price * (if risk = "aggressive" then (90/100) else (95/100))) := by
  simp only [calculateOptimalPrice, Option.none_bind, Option.getD_none, hev,
    Bool.false_eq_true, if_false]
  rw [if_neg hinv, if_pos (by norm_num)]

/-- Witness for C2_theorem at a 100.00 product with inventory 20. -/
theorem C2_witness :
    calculateOptimalPrice prodC2 none none "normal"
      = round2 (prodC2.price * (if "normal" = "aggressive" then (90/100) else (95/100))) :=
  C2_theorem prodC2 none "normal" (by decide) (by decide)

/-- Claim C4 (corrected part): on a keyword match the seasonal clause
multiplies the current candidate instead of replacing it: a 100.00 product
with inventory 3 and a matching title gets `round2 (100 × 1.1 × 1.15) = 126.5`,
not the `round2 (100 × 1.15) = 115` the claim asserts. -/
theorem C4_counterexample :
    calculateOptimalPrice prodC4 (some perfC4) (some evC4) "normal" = 253/2 ∧
      round2 ((100 : ℚ) * (115/100)) = 115 ∧ (253/2 : ℚ) ≠ 115 := by
  refine ⟨?_, by norm_num [round2, jsRound], by norm_num⟩
  norm_num +decide [calculateOptimalPrice, prodC4, perfC4, evC4, eventMatches,
    jsIncludes, charsContains, charsHasPrefix, round2, jsRound]

/-- Claim C4 (amended): whenever the keyword of the active events match the title,
the base candidate equals the pre-seasonal candidate (performance and
inventory rules) multiplied by 1.2 (`aggressive`) or 1.15 (otherwise), then
rounded — the seasonal rule compounds with, rather than replaces, the earlier
rules. -/
theorem C4_theorem (p : Product) (perf : Option Performance)
    (event : Option SeasonalEvent) (risk : String)
    (hev : eventMatches event p.title = true) :
    calculateOptimalPrice p perf event risk
      = round2 (preSeasonalCandidate p perf risk
          * (if risk = "aggressive" then (120/100) else (115/100))) := by
  simp only [calculateOptimalPrice, preSeasonalCandidate, hev, if_true]

/-- Witness for C4_theorem at the matching low-inventory product. -/
theorem C4_witness :
    calculateOptimalPrice prodC4 (some perfC4) (some evC4) "normal"
      = round2 (preSeasonalCandidate prodC4 (some perfC4) "normal"
          * (if "normal" = "aggressive" then (120/100) else (115/100))) :=
  C4_theorem prodC4 (some perfC4) (some evC4) "normal" (by decide)

/-- Claim C8 (corrected part): the rounding rewrite is applied even when no
rule fires: a product priced 0.125 with a neutral snapshot and no override is
rewritten to 0.13. -/
theorem C8_counterexample :
    calculateOptimalPrice prodC8 (some perfC8) none "normal" = 13/100 ∧
      (13/100 : ℚ) ≠ prodC8.price := by
  constructor
  · norm_num +decide [calculateOptimalPrice, prodC8, perfC8, eventMatches, round2, jsRound]
  · norm_num [prodC8]

/-- Claim C8 (amended): when no rule condition matches, the base candidate is
`round2` of the current price, which equals the current price exactly whenever
that price is a whole number of hundredths (the rounding is applied, but is
then the identity). -/
theorem C8_theorem (p : Product) (pf : Performance) (event : Option SeasonalEvent)
    (risk : String)
    (h1 : ¬ ((pf.profit_margin.getD 0 : ℚ) > 25/100 ∧ (pf.conversion_rate.getD 0 : ℚ) > 8/100))
    (h2 : ¬ (pf.conversion_rate.getD 0 : ℚ) < 2/100)
    (h3 : ¬ p.inventory_quantity < 5)
    (h4 : eventMatches event p.title = false) :
    calculateOptimalPrice p (some pf) event risk = round2 p.price ∧
      ((p.price * 100).den = 1 → calculateOptimalPrice p (some pf) event risk = p.price) := by
  have hbase : calculateOptimalPrice p (some pf) event risk = round2 p.price := by
    simp only [calculateOptimalPrice, Option.some_bind, h4, Bool.false_eq_true, if_false]
    rw [if_neg h3, if_neg h2, if_neg h1]
  exact ⟨hbase, fun hden => hbase.trans (round2_eq_self p.price hden)⟩

/-- Witness for C8_theorem at a 100.00 product with a neutral snapshot. -/
theorem C8_witness :
    calculateOptimalPrice prodC8b (some perfC8) none "normal" = round2 prodC8b.price ∧
      ((prodC8b.price * 100).den = 1 →
        calculateOptimalPrice prodC8b (some perfC8) none "normal" = prodC8b.price) :=
  C8_theorem prodC8b perfC8 none "normal" (by norm_num [perfC8]) (by norm_num [perfC8])
    (by decide) (by decide)

/-- Claim C3 (corrected part): under risk `aggressive` a product with 1
approval and 3 rejections — well inside the bar `rejected ≤ 5 × approved` of the claim
bar — is nevertheless suppressed: the run logs a skip row and no suggestion. -/
theorem C3_counterexample :
    runAutopilot envC3 = .ok (⟨1, 0, 0, 1, 1⟩,
      [⟨"p3", "price_skipped_due_to_feedback", "skipped", some 100, some 112⟩,
       ⟨"p3", "ad_boost_suggested", "suggested", none, none⟩]) ∧ (3 : ℕ) ≤ 5 * 1 := by
  constructor
  · norm_num +decide [runAutopilot, modeOf, riskOf, jsOrStr, stepProduct, priceStep,
      marketingStep, calculateOptimalPrice, getFeedbackTrends, eventMatches,
      round2, jsRound, initCounters, envC3, prodC3]
  · norm_num

/-- Claim C3 (amended): under risk `aggressive` the feedback gate uses the
same `rejected > approved × 2` threshold as every other risk level — one
iteration writes a price-skip row exactly when `rejected > 2 × approved`, a
suggestion row exactly when the gate does not fire and the candidate price
changed, and, for a winning product, an ad-skip row exactly when the
ad-boost feedback satisfies `rejected > 2 × approved`. -/
theorem C3_theorem (env : Env) (mode : String) (ev : Option SeasonalEvent)
    (p : Product) (st : Counters × List LogEntry) :
    priceSkips (stepProduct env mode "aggressive" ev st p).2 p.shopify_product_id
      = priceSkips st.2 p.shopify_product_id
        + (if (getFeedbackTrends (env.feedbackRows p.shopify_product_id "price_adjustment")).rejected
              > (getFeedbackTrends (env.feedbackRows p.shopify_product_id "price_adjustment")).approved * 2
           then 1 else 0) ∧
    priceAdjustments (stepProduct env mode "aggressive" ev st p).2 p.shopify_product_id
      = priceAdjustments st.2 p.shopify_product_id
        + (if ¬ (getFeedbackTrends (env.feedbackRows p.shopify_product_id "price_adjustment")).rejected
              > (getFeedbackTrends (env.feedbackRows p.shopify_product_id "price_adjustment")).approved * 2
            ∧ calculateOptimalPrice p (env.perf p.shopify_product_id) ev "aggressive" ≠ p.price
           then 1 else 0) ∧
    adSkips (stepProduct env mode "aggressive" ev st p).2 p.shopify_product_id
      = adSkips st.2 p.shopify_product_id
        + (if isWinnerFor env ev p = true then
             (if (getFeedbackTrends (env.feedbackRows p.shopify_product_id "ad_boost_suggested")).rejected
                 > (getFeedbackTrends (env.feedbackRows p.shopify_product_id "ad_boost_suggested")).approved * 2
              then 1 else 0)
           else 0) :=
  ⟨(gate_step env mode "aggressive" ev p st).1, (gate_step env mode "aggressive" ev p st).2,
   adSkips_step env mode "aggressive" ev p st⟩

/-- Claim C6 (corrected part): feedback history suppresses even a product
whose candidate price equals its current price: with no rule firing and a
single rejection on record, the run still logs `price_skipped_due_to_feedback`
and increments the skip counter. -/
theorem C6_counterexample :
    runAutopilot envC6 = .ok (⟨1, 0, 0, 1, 0⟩,
      [⟨"p7", "price_skipped_due_to_feedback", "skipped", some 100, some 100⟩]) ∧
    calculateOptimalPrice prodC6 (envC6.perf "p7") none "normal" = prodC6.price := by
  constructor
  · norm_num +decide [runAutopilot, modeOf, riskOf, jsOrStr, stepProduct, priceStep,
      marketingStep, calculateOptimalPrice, getFeedbackTrends, eventMatches,
      round2, jsRound, initCounters, envC6, prodC6]
  · norm_num +decide [calculateOptimalPrice, envC6, prodC6, eventMatches, round2, jsRound]

/-- Claim C6 (amended): the feedback gate is consulted before the candidate
change is examined; for a product whose candidate equals its current price the
price decision of the iteration still writes a skip row (and bumps the skip
counter) exactly when `rejected > 2 × approved`, and does nothing otherwise. -/
theorem C6_theorem (env : Env) (mode risk : String) (ev : Option SeasonalEvent)
    (p : Product) (st : Counters × List LogEntry)
    (hnochange : calculateOptimalPrice p (env.perf p.shopify_product_id) ev risk = p.price) :
    priceStep env mode risk ev p st
      = (if (getFeedbackTrends (env.feedbackRows p.shopify_product_id "price_adjustment")).rejected
            > (getFeedbackTrends (env.feedbackRows p.shopify_product_id "price_adjustment")).approved * 2
         then ({ st.1 with skippedDueToFeedback := st.1.skippedDueToFeedback + 1 },
               st.2 ++ [⟨p.shopify_product_id, "price_skipped_due_to_feedback", "skipped",
                        some p.price,
                        some (calculateOptimalPrice p (env.perf p.shopify_product_id) ev risk)⟩])
         else st) := by
  simp only [priceStep]
  split_ifs <;> first | rfl | exact absurd hnochange (by assumption)

/-- Witness for C6_theorem at a no-change product with one rejection. -/
theorem C6_witness :
    priceStep envC6 "assist" "normal" none prodC6 (initCounters, [])
      = (if (getFeedbackTrends (envC6.feedbackRows "p7" "price_adjustment")).rejected
            > (getFeedbackTrends (envC6.feedbackRows "p7" "price_adjustment")).approved * 2
         then (⟨0, 0, 0, 1, 0⟩,
               [⟨"p7", "price_skipped_due_to_feedback", "skipped", some 100,
                some (calculateOptimalPrice prodC6 (envC6.perf "p7") none "normal")⟩])
         else (initCounters, [])) :=
  C6_theorem envC6 "assist" "normal" none prodC6 (initCounters, [])
    (by norm_num +decide [calculateOptimalPrice, envC6, prodC6, eventMatches, round2, jsRound])

/-- Claim C9: for risk `safe` or `normal` one loop iteration writes a skip
row iff `rejected > 2 × approved` (so never at the boundary
`rejected = 2 × approved`), writes a suggestion row iff the gate does not
fire and the candidate changed, and a failed feedback read degrades to
0 approved / 0 rejected, which never suppresses. -/
theorem C9_theorem (env : Env) (mode risk : String) (ev : Option SeasonalEvent)
    (p : Product) (st : Counters × List LogEntry) (e : String)
    (_hrisk : risk = "safe" ∨ risk = "normal") :
    (priceSkips (stepProduct env mode risk ev st p).2 p.shopify_product_id
      = priceSkips st.2 p.shopify_product_id
        + (if (getFeedbackTrends (env.feedbackRows p.shopify_product_id "price_adjustment")).rejected
              > (getFeedbackTrends (env.feedbackRows p.shopify_product_id "price_adjustment")).approved * 2
           then 1 else 0)) ∧
    (priceAdjustments (stepProduct env mode risk ev st p).2 p.shopify_product_id
      = priceAdjustments st.2 p.shopify_product_id
        + (if ¬ (getFeedbackTrends (env.feedbackRows p.shopify_product_id "price_adjustment")).rejected
              > (getFeedbackTrends (env.feedbackRows p.shopify_product_id "price_adjustment")).approved * 2
            ∧ calculateOptimalPrice p (env.perf p.shopify_product_id) ev risk ≠ p.price
           then 1 else 0)) ∧
    getFeedbackTrends (Except.error e) = ⟨0, 0⟩ ∧
    ¬ (getFeedbackTrends (Except.error e)).rejected
        > (getFeedbackTrends (Except.error e)).approved * 2 := by
  refine ⟨(gate_step env mode risk ev p st).1, (gate_step env mode risk ev p st).2, rfl, ?_⟩
  simp [getFeedbackTrends]

/-- Witness for C9_theorem at risk `safe` with a failed feedback read. -/
theorem C9_witness :
    (priceSkips (stepProduct envC9 "assist" "safe" none (initCounters, []) prodC9).2 "p10"
      = priceSkips ([] : List LogEntry) "p10"
        + (if (getFeedbackTrends (envC9.feedbackRows "p10" "price_adjustment")).rejected
              > (getFeedbackTrends (envC9.feedbackRows "p10" "price_adjustment")).approved * 2
           then 1 else 0)) ∧
    (priceAdjustments (stepProduct envC9 "assist" "safe" none (initCounters, []) prodC9).2 "p10"
      = priceAdjustments ([] : List LogEntry) "p10"
        + (if ¬ (getFeedbackTrends (envC9.feedbackRows "p10" "price_adjustment")).rejected
              > (getFeedbackTrends (envC9.feedbackRows "p10" "price_adjustment")).approved * 2
            ∧ calculateOptimalPrice prodC9 (envC9.perf "p10") none "safe" ≠ prodC9.price
           then 1 else 0)) ∧
    getFeedbackTrends (Except.error "db down") = ⟨0, 0⟩ ∧
    ¬ (getFeedbackTrends (Except.error "db down")).rejected
        > (getFeedbackTrends (Except.error "db down")).approved * 2 :=
  C9_theorem envC9 "assist" "safe" none prodC9 (initCounters, []) "db down" (Or.inl rfl)

/-- Claim C5 (corrected part): in mode `full` with risk `aggressive` and a
failing external update, the `price_adjustment` row carries status
`pending_apply`, not `suggested`; the run also processes the second product
(analyzed = 2), never writes `price_applied`, and leaves applied = 0. -/
theorem C5_counterexample :
    runAutopilot envC5 = .ok (⟨2, 2, 0, 0, 1⟩,
      [⟨"p5", "price_adjustment", "pending_apply", some 100, some 112⟩,
       ⟨"p5", "ad_boost_suggested", "suggested", none, none⟩,
       ⟨"p6", "price_adjustment", "pending_apply", some 50, some 45⟩]) ∧
    "pending_apply" ≠ "suggested" := by
  constructor
  · norm_num +decide [runAutopilot, modeOf, riskOf, jsOrStr, stepProduct, priceStep,
      marketingStep, calculateOptimalPrice, getFeedbackTrends, eventMatches,
      round2, jsRound, initCounters, envC5, prodC5, prodC5b]
  · decide

/-- Claim C5 (amended): in mode `full` with risk `aggressive`, when the gate
does not fire, the candidate price changed, and the external update fails,
the iteration logs exactly one `price_adjustment` row with status
`pending_apply`, writes no `price_applied` row, and leaves every counter
except `priceSuggestions` unchanged — so the loop continues from an
unmodified state. -/
theorem C5_theorem (env : Env) (ev : Option SeasonalEvent) (p : Product)
    (st : Counters × List LogEntry)
    (hgate : ¬ (getFeedbackTrends (env.feedbackRows p.shopify_product_id "price_adjustment")).rejected
        > (getFeedbackTrends (env.feedbackRows p.shopify_product_id "price_adjustment")).approved * 2)
    (hch : calculateOptimalPrice p (env.perf p.shopify_product_id) ev "aggressive" ≠ p.price)
    (hfetch : env.fetchOk p.shopify_product_id
        (calculateOptimalPrice p (env.perf p.shopify_product_id) ev "aggressive") = false) :
    priceStep env "full" "aggressive" ev p st
      = ({ st.1 with priceSuggestions := st.1.priceSuggestions + 1 },
         st.2 ++ [⟨p.shopify_product_id, "price_adjustment", "pending_apply", some p.price,
           some (calculateOptimalPrice p (env.perf p.shopify_product_id) ev "aggressive")⟩]) := by
  simp only [priceStep]
  split_ifs <;> simp_all

/-- Witness for C5_theorem at the failing-update product. -/
theorem C5_witness :
    priceStep envC5 "full" "aggressive" none prodC5 (initCounters, [])
      = (⟨0, 1, 0, 0, 0⟩,
         [⟨"p5", "price_adjustment", "pending_apply", some 100,
           some (calculateOptimalPrice prodC5 (envC5.perf "p5") none "aggressive")⟩]) :=
  C5_theorem envC5 none prodC5 (initCounters, []) (by decide)
    (by norm_num +decide [calculateOptimalPrice, envC5, prodC5, eventMatches, round2, jsRound])
    rfl

/-- Claim C7 (corrected part): a run whose shop-config read failed does not
abort — it falls back to defaults and returns a summary. -/
theorem C7_counterexample :
    runSucceeds envC7 = true ∧ envC7.shopInfoData = none := by
  refine ⟨?_, rfl⟩
  norm_num +decide [runSucceeds, runAutopilot, modeOf, riskOf, jsOrStr, stepProduct,
    priceStep, marketingStep, calculateOptimalPrice, getFeedbackTrends, eventMatches,
    round2, jsRound, initCounters, envC7, prodC7]

/-- Claim C7 (amended): a run aborts exactly when the product read fails or
returns no products; an unreadable shop configuration instead degrades to the
defaults mode `manual` and risk `normal`. -/
theorem C7_theorem (env : Env) :
    runSucceeds env = (match env.productsData with
      | .ok ps => !ps.isEmpty
      | .error _ => false) ∧
    modeOf { env with shopInfoData := none } = "manual" ∧
    riskOf { env with shopInfoData := none } = "normal" := by
  refine ⟨?_, rfl, rfl⟩
  cases henv : env.productsData with
  | error e => simp [runSucceeds, runAutopilot, henv]
  | ok ps =>
    cases ps with
    | nil => simp [runSucceeds, runAutopilot, henv]
    | cons a l => simp [runSucceeds, runAutopilot, henv]

/-- The price step leaves the analyzed counter alone. -/
theorem priceStep_analyzed (env : Env) (mode risk : String) (ev : Option SeasonalEvent)
    (p : Product) (st : Counters × List LogEntry) :
    (priceStep env mode risk ev p st).1.analyzed = st.1.analyzed := by
  simp only [priceStep]
  split_ifs <;> rfl

/-- The marketing step leaves the analyzed counter alone. -/
theorem marketingStep_analyzed (env : Env) (r : String) (ev : Option SeasonalEvent)
    (p : Product) (st : Counters × List LogEntry) :
    (marketingStep env r ev p st).1.analyzed = st.1.analyzed := by
  simp only [marketingStep]
  split_ifs <;> rfl

/-- The price step increments `applied` only in an iteration state where it
has already incremented `priceSuggestions`. -/
theorem priceStep_applied_le (env : Env) (mode risk : String) (ev : Option SeasonalEvent)
    (p : Product) (st : Counters × List LogEntry) :
    (priceStep env mode risk ev p st).1.applied + st.1.priceSuggestions
      ≤ st.1.applied + (priceStep env mode risk ev p st).1.priceSuggestions := by
  simp only [priceStep]
  split_ifs <;> dsimp only <;> omega

/-- The marketing step touches neither price counter. -/
theorem marketingStep_price_counters (env : Env) (r : String) (ev : Option SeasonalEvent)
    (p : Product) (st : Counters × List LogEntry) :
    (marketingStep env r ev p st).1.applied = st.1.applied ∧
    (marketingStep env r ev p st).1.priceSuggestions = st.1.priceSuggestions := by
  simp only [marketingStep]
  split_ifs <;> exact ⟨rfl, rfl⟩

/-- One loop iteration adds one to `analyzed` and preserves
`applied ≤ priceSuggestions` as a difference bound. -/
theorem stepProduct_counters (env : Env) (mode risk : String) (ev : Option SeasonalEvent)
    (st : Counters × List LogEntry) (p : Product) :
    (stepProduct env mode risk ev st p).1.analyzed = st.1.analyzed + 1 ∧
    (stepProduct env mode risk ev st p).1.applied + st.1.priceSuggestions
      ≤ st.1.applied + (stepProduct env mode risk ev st p).1.priceSuggestions := by
  unfold stepProduct
  constructor
  · rw [marketingStep_analyzed, priceStep_analyzed]
  · have h1 := priceStep_applied_le env mode risk ev p
      ({ st.1 with analyzed := st.1.analyzed + 1 }, st.2)
    have h2 := marketingStep_price_counters env risk ev p
      (priceStep env mode risk ev p ({ st.1 with analyzed := st.1.analyzed + 1 }, st.2))
    dsimp only at h1 h2 ⊢
    omega

/-- Folding the loop over a product list adds the list length to `analyzed`
and preserves the `applied`/`priceSuggestions` difference bound. -/
theorem foldl_counters (env : Env) (mode risk : String) (ev : Option SeasonalEvent) :
    ∀ (ps : List Product) (st : Counters × List LogEntry),
      ((ps.foldl (stepProduct env mode risk ev) st).1.analyzed = st.1.analyzed + ps.length) ∧
      ((ps.foldl (stepProduct env mode risk ev) st).1.applied + st.1.priceSuggestions
        ≤ st.1.applied + (ps.foldl (stepProduct env mode risk ev) st).1.priceSuggestions)
  | [], st => by simp
  | p :: ps, st => by
    simp only [List.foldl_cons, List.length_cons]
    have h1 := stepProduct_counters env mode risk ev st p
    have h2 := foldl_counters env mode risk ev ps (stepProduct env mode risk ev st p)
    exact ⟨by omega, by omega⟩

/-- Claim C10: every summary a run returns has `analyzed` equal to the number
of loaded products and `applied ≤ price_suggestions` (all counters live in ℕ,
hence are non-negative by construction). -/
theorem C10_theorem (env : Env) (s : RunSummary) (log : List LogEntry)
    (h : runAutopilot env = .ok (s, log)) :
    (∃ ps, env.productsData = .ok ps ∧ s.analyzed = ps.length) ∧
      s.applied ≤ s.price_suggestions := by
  unfold runAutopilot at h
  cases henv : env.productsData with
  | error e => rw [henv] at h; simp at h
  | ok ps =>
    rw [henv] at h
    dsimp only at h
    by_cases hlen : ps.length = 0
    · rw [if_pos hlen] at h; simp at h
    · rw [if_neg hlen] at h
      simp only [Except.ok.injEq, Prod.mk.injEq] at h
      obtain ⟨hs, -⟩ := h
      have hc := foldl_counters env (modeOf env) (riskOf env)
        ((env.eventsData.getD []).head?) ps (initCounters, [])
      refine ⟨⟨ps, rfl, ?_⟩, ?_⟩
      · rw [← hs]
        simpa [initCounters] using hc.1
      · rw [← hs]
        simpa [initCounters] using hc.2

/-- Witness for C10_theorem on a one-product run. -/
theorem C10_witness :
    (∃ ps, envC10.productsData = .ok ps ∧ (⟨1, 0, 0, 0, 0⟩ : RunSummary).analyzed = ps.length) ∧
      (⟨1, 0, 0, 0, 0⟩ : RunSummary).applied ≤ (⟨1, 0, 0, 0, 0⟩ : RunSummary).price_suggestions :=
  C10_theorem envC10 ⟨1, 0, 0, 0, 0⟩ [] (by
    norm_num +decide [runAutopilot, modeOf, riskOf, jsOrStr, stepProduct, priceStep,
      marketingStep, calculateOptimalPrice, getFeedbackTrends, eventMatches,
      round2, jsRound, initCounters, envC10, prodC10])

end Autopilot
